import Mathlib

/-!
# mod_ualog: bucketed counter recording

A shallow embedding of `src/log_collectors/mod_ualog.c` (an Apache httpd module
that counts client IPs and User-Agents per time bucket in Redis) and theorems
about its key derivation, connection handling and failure policy.

C strings are lists of characters, C integers are mathematical integers
(the ranges of `int`, `time_t` and `apr_time_t` appear as hypotheses where a
result depends on them), pointers that may be NULL are `Option`s, and a run
that reaches undefined behaviour (division by zero, NULL dereference) is `none`.
-/

namespace ModUalog

/-! ## C library pieces used by the module -/

/-- A C string: the bytes before the terminating NUL. -/
abbrev CStr := List Char

/-- The character of a decimal digit `d < 10`. -/
def digit (d : Nat) : Char := Char.ofNat (48 + d)

/-- Decimal digits of `n`, most significant first, as `printf("%d")` writes a
non-negative number. `fuel` bounds the number of digits; `fuel = n + 1` is
always enough. -/
def dec : Nat → Nat → CStr
  | 0, _ => []
  | fuel + 1, n => (if n / 10 = 0 then [] else dec fuel (n / 10)) ++ [digit (n % 10)]

/-- Left-pad `s` with `'0'` to at least `width` characters. -/
def zero_pad (width : Nat) (s : CStr) : CStr :=
  List.replicate (width - s.length) '0' ++ s

/-- The conversion `%0<width>d` of `printf`: decimal digits, zero-padded to a
minimum field width; a negative number starts with `-`, which counts towards
the width. The output is never cut to the width. -/
def fmt_0d (width : Nat) (v : Int) : CStr :=
  if v < 0 then '-' :: zero_pad (width - 1) (dec (v.natAbs + 1) v.natAbs)
  else zero_pad width (dec (v.natAbs + 1) v.natAbs)

/-- What `snprintf(buf, size, ...)` leaves in `buf` when the formatted text is
`s`: at most `size - 1` characters (the last byte is the NUL). -/
def snprintf (size : Nat) (s : CStr) : CStr := s.take (size - 1)

/-- The fields of `struct tm` (`tm_year` counts from 1900, `tm_mon` from 0). -/
structure tm where
  tm_sec : Int
  tm_min : Int
  tm_hour : Int
  tm_mday : Int
  tm_mon : Int
  tm_year : Int
  deriving DecidableEq, Repr

/-- The year, month (1..12) and day of month of the day `days` days after
1970-01-01 in the proleptic Gregorian calendar. The day is first counted from
0000-03-01 and split into 400-year eras (146097 days), centuries (36524 days,
the fourth one a day longer), 4-year cycles (1461 days) and years (365 days, the
fourth one a day longer); the month comes from the day of the March-based year.
Divisions are floor divisions. -/
def civil_from_days (days : Int) : Int × Int × Int :=
  let z := days + 719468
  let era := z / 146097
  let doe := z % 146097
  let c := min 3 (doe / 36524)
  let dc := doe - c * 36524
  let q := dc / 1461
  let dq := dc % 1461
  let a := min 3 (dq / 365)
  let doy := dq - a * 365
  let yoe := 100 * c + 4 * q + a
  let mp := (5 * doy + 2) / 153
  let d := doy - (153 * mp + 2) / 5 + 1
  let m := if mp < 10 then mp + 3 else mp - 9
  let y := yoe + era * 400 + (if m ≤ 2 then 1 else 0)
  (y, m, d)

/-- The libc call `gmtime_r`: broken-down UTC time of `t` seconds since the epoch. -/
def gmtime_r (t : Int) : tm :=
  let days := t / 86400
  let rem := t % 86400
  let ymd := civil_from_days days
  { tm_sec := rem % 60
    tm_min := rem % 3600 / 60
    tm_hour := rem / 3600
    tm_mday := ymd.2.2
    tm_mon := ymd.2.1 - 1
    tm_year := ymd.1 - 1900 }

/-- The constant of `apr_time.h`: microseconds per second. -/
def APR_USEC_PER_SEC : Int := 1000000

/-! ## Bucket key derivation (`rl_log_transaction`, lines 127-139) -/

/-- The line `time_t bucket = secs - (secs % cfg->bucket_seconds);`. C's `%`
truncates towards zero; a zero divisor is undefined behaviour (`none`). -/
def bucket_start (bucket_seconds : Int) (secs : Int) : Option Int :=
  if bucket_seconds = 0 then none else some (secs - Int.tmod secs bucket_seconds)

/-- The text of `ts` after
`snprintf(ts, sizeof(ts), "%04d%02d%02d%02d%02d", t.tm_year + 1900, t.tm_mon + 1,
t.tm_mday, t.tm_hour, t.tm_min)` with `char ts[16]` and `t = gmtime(bucket)`. -/
def format_ts (bucket : Int) : CStr :=
  let t := gmtime_r bucket
  snprintf 16 (fmt_0d 4 (t.tm_year + 1900) ++ fmt_0d 2 (t.tm_mon + 1) ++ fmt_0d 2 t.tm_mday
    ++ fmt_0d 2 t.tm_hour ++ fmt_0d 2 t.tm_min)

/-- The keys `(key_ip, key_ua)` computed by lines 130-139 of `rl_log_transaction`
from `secs`: `"%s:ip:%s"` and `"%s:ua:%s"` of the prefix and `ts`, each written
into a 256-byte buffer. -/
def derive_keys (pfx : CStr) (bucket_seconds : Int) (secs : Int) : Option (CStr × CStr) :=
  match bucket_start bucket_seconds secs with
  | none => none
  | some bucket =>
    let ts := format_ts bucket
    some (snprintf 256 (pfx ++ ":ip:".toList ++ ts), snprintf 256 (pfx ++ ":ua:".toList ++ ts))

/-! ## Configuration (`rl_cfg`, `rl_create_srv`, `set_bucket`) -/

/-- The libc predicate `isspace` in the C locale. -/
def isspace (c : Char) : Bool := c = ' ' || (9 ≤ c.toNat && c.toNat ≤ 13)

/-- The value of the leading run of decimal digits of `s`, continuing from `acc`. -/
def digits_value : CStr → Nat → Nat
  | [], acc => acc
  | c :: cs, acc => if c.isDigit then digits_value cs (10 * acc + (c.toNat - 48)) else acc

/-- The libc call `strtol(s, NULL, 10)` on a 64-bit `long`: optional white space,
an optional sign, then digits; the result saturates at the ends of `long`. -/
def strtol (s : CStr) : Int :=
  let s1 := s.dropWhile isspace
  let v : Int :=
    match s1 with
    | '-' :: cs => - (digits_value cs 0 : Int)
    | '+' :: cs => (digits_value cs 0 : Int)
    | cs => (digits_value cs 0 : Int)
  max (-(2 ^ 63)) (min (2 ^ 63 - 1) v)

/-- The libc call `atoi`: `(int) strtol(s, NULL, 10)`, the conversion to a 32-bit
`int` keeping the low 32 bits. -/
def atoi (s : CStr) : Int := (strtol s + 2 ^ 31) % 2 ^ 32 - 2 ^ 31

/-- The server configuration `rl_cfg`; the field `prefix` is called `pfx` here. -/
structure rl_cfg where
  host : CStr
  port : Int
  db : Int
  pfx : CStr
  bucket_seconds : Int
  retention_seconds : Int
  fail_open : Int
  deriving DecidableEq, Repr

/-- The defaults set by `rl_create_srv`. -/
def rl_create_srv : rl_cfg :=
  { host := "127.0.0.1".toList
    port := 6379
    db := 0
    pfx := "rl".toList
    bucket_seconds := 600
    retention_seconds := 14 * 24 * 3600
    fail_open := 1 }

/-- The directive handler `set_bucket` (`RedisLogBucketSeconds`). -/
def set_bucket (cfg : rl_cfg) (arg : CStr) : rl_cfg :=
  { cfg with bucket_seconds := atoi arg }

/-! ## The Redis client library as an environment -/

/-- The identity of a `redisContext` allocated by hiredis. -/
abbrev redisContext := Nat

/-- What `redisConnectWithTimeout` returns: NULL, a context with `err` set, or a
usable context. -/
inductive ConnectResult where
  | null
  | err (c : redisContext)
  | ok (c : redisContext)
  deriving DecidableEq, Repr

/-- What `redisCommand` returns, as far as the module looks at it: NULL, a reply
of type `REDIS_REPLY_ERROR`, or any other reply. -/
inductive redisReply where
  | null
  | error
  | other
  deriving DecidableEq, Repr

/-- The commands the module sends. -/
inductive Command where
  | SELECT (db : Int)
  | HINCRBY (key field : CStr) (increment : Int)
  | EXPIRE (key : CStr) (seconds : Int)
  deriving DecidableEq, Repr

/-- One call into hiredis. -/
inductive Event where
  | connect (host : CStr) (port : Int)
  | command (c : redisContext) (cmd : Command)
  | free (c : redisContext)
  deriving DecidableEq, Repr

/-- The behaviour of the backend: the result of each hiredis call may depend on
every call made before it (`List Event`, oldest first) and on its arguments. -/
structure Backend where
  redisConnectWithTimeout : List Event → CStr → Int → ConnectResult
  redisCommand : List Event → redisContext → Command → redisReply

/-- The test `!r || r->type == REDIS_REPLY_ERROR` on a reply. -/
def reply_failed (r : redisReply) : Bool :=
  match r with
  | .null => true
  | .error => true
  | .other => false

/-! ## Process state and the two entry points -/

/-- The struct `rl_child_ctx`: `ctx` is NULL (`none`) or a live context. -/
structure rl_child_ctx where
  ctx : Option redisContext
  deriving DecidableEq, Repr

/-- The state of one worker process: the global pointer `g_child_ctx` (NULL until
`rl_child_init` has run) and the hiredis calls made so far. -/
structure World where
  g_child_ctx : Option rl_child_ctx
  trace : List Event
  deriving DecidableEq, Repr

/-- The assignment `g_child_ctx->ctx = v`; with `g_child_ctx` NULL it is a NULL
dereference. -/
def set_ctx (v : Option redisContext) (w : World) : Option World :=
  match w.g_child_ctx with
  | none => none
  | some _ => some { w with g_child_ctx := some { ctx := v } }

/-- The function `rl_connect_child` (lines 85-106); logging is left out. -/
def rl_connect_child (be : Backend) (cfg : rl_cfg) (w : World) : Option World :=
  let c := be.redisConnectWithTimeout w.trace cfg.host cfg.port
  let tr1 := w.trace ++ [Event.connect cfg.host cfg.port]
  match c with
  | .null => set_ctx none { w with trace := tr1 }
  | .err h => set_ctx none { w with trace := tr1 ++ [Event.free h] }
  | .ok h =>
    if cfg.db > 0 then
      let r := be.redisCommand tr1 h (Command.SELECT cfg.db)
      let tr2 := tr1 ++ [Event.command h (Command.SELECT cfg.db)]
      if reply_failed r then set_ctx none { w with trace := tr2 ++ [Event.free h] }
      else set_ctx (some h) { w with trace := tr2 }
    else set_ctx (some h) { w with trace := tr1 }

/-- The hook `rl_child_init`: allocate a zeroed `g_child_ctx`, then connect. -/
def rl_child_init (be : Backend) (cfg : rl_cfg) (w : World) : Option World :=
  rl_connect_child be cfg { w with g_child_ctx := some { ctx := none } }

/-- The fields of `request_rec` the module reads: `main` is true for a
subrequest (`r->main` not NULL), `user_agent` is the result of
`apr_table_get(r->headers_in, "User-Agent")`, `useragent_ip` the client address. -/
structure request_rec where
  main : Bool
  user_agent : Option CStr
  useragent_ip : Option CStr
  deriving DecidableEq, Repr

/-- The User-Agent that is counted (lines 118-119): the value of the header, or
`-` when `apr_table_get` returns NULL. -/
def ua_field (r : request_rec) : CStr := r.user_agent.getD "-".toList

/-- The client address that is counted (lines 121-125): `r->useragent_ip`, or `-`
when it is NULL. -/
def ip_field (r : request_rec) : CStr := r.useragent_ip.getD "-".toList

/-- The httpd status `DECLINED`. -/
def DECLINED : Int := -1

/-- The httpd status `HTTP_SERVICE_UNAVAILABLE`. -/
def HTTP_SERVICE_UNAVAILABLE : Int := 503

/-- The condition `!g_child_ctx || !g_child_ctx->ctx`. -/
def no_ctx (w : World) : Bool :=
  match w.g_child_ctx with
  | none => true
  | some g => g.ctx.isNone

/-- Line 142: `if (!g_child_ctx || !g_child_ctx->ctx) rl_connect_child(r->server, cfg);`. -/
def ensure_connected (be : Backend) (cfg : rl_cfg) (w : World) : Option World :=
  if no_ctx w then rl_connect_child be cfg w else some w

/-- The tail `if (!cfg->fail_open) return HTTP_SERVICE_UNAVAILABLE; return DECLINED;`
of each failure branch. -/
def fail_status (cfg : rl_cfg) : Int :=
  if cfg.fail_open = 0 then HTTP_SERVICE_UNAVAILABLE else DECLINED

/-- The hook `rl_log_transaction` (lines 114-174) run at time `now`
(`apr_time_now()`, microseconds): the returned status and the new process state.
The replies `_ti` and `_tu` of the two `EXPIRE` commands are only freed. -/
def rl_log_transaction (be : Backend) (cfg : rl_cfg) (r : request_rec) (now : Int) (w : World) :
    Option (Int × World) :=
  if r.main then some (DECLINED, w) else
  let ua := ua_field r
  let ip := ip_field r
  let secs := Int.tdiv now APR_USEC_PER_SEC
  match derive_keys cfg.pfx cfg.bucket_seconds secs with
  | none => none
  | some (key_ip, key_ua) =>
    match ensure_connected be cfg w with
    | none => none
    | some w1 =>
      match w1.g_child_ctx with
      | none => some (fail_status cfg, w1)
      | some { ctx := none } => some (fail_status cfg, w1)
      | some { ctx := some c } =>
        let ri := be.redisCommand w1.trace c (Command.HINCRBY key_ip ip 1)
        let tr1 := w1.trace ++ [Event.command c (Command.HINCRBY key_ip ip 1)]
        if reply_failed ri then
          some (fail_status cfg, { g_child_ctx := some { ctx := none }, trace := tr1 ++ [Event.free c] })
        else
        let ru := be.redisCommand tr1 c (Command.HINCRBY key_ua ua 1)
        let tr2 := tr1 ++ [Event.command c (Command.HINCRBY key_ua ua 1)]
        if reply_failed ru then
          some (fail_status cfg, { g_child_ctx := some { ctx := none }, trace := tr2 ++ [Event.free c] })
        else
        let _ti := be.redisCommand tr2 c (Command.EXPIRE key_ip cfg.retention_seconds)
        let tr3 := tr2 ++ [Event.command c (Command.EXPIRE key_ip cfg.retention_seconds)]
        let _tu := be.redisCommand tr3 c (Command.EXPIRE key_ua cfg.retention_seconds)
        let tr4 := tr3 ++ [Event.command c (Command.EXPIRE key_ua cfg.retention_seconds)]
        some (DECLINED, { g_child_ctx := some { ctx := some c }, trace := tr4 })

/-- The commands among a list of hiredis calls, in order. -/
def commands_of : List Event → List Command
  | [] => []
  | Event.command _ cmd :: es => cmd :: commands_of es
  | _ :: es => commands_of es

/-- The number of connect attempts among a list of hiredis calls. -/
def connect_count : List Event → Nat
  | [] => 0
  | Event.connect _ _ :: es => connect_count es + 1
  | _ :: es => connect_count es

/-- Handling the requests `rs` (each with its arrival time) one after the other. -/
def run (be : Backend) (cfg : rl_cfg) : List (request_rec × Int) → World → Option World
  | [], w => some w
  | (r, now) :: rs, w =>
    match rl_log_transaction be cfg r now w with
    | none => none
    | some (_, w1) => run be cfg rs w1

/-! ## Reference rendering of the bucket timestamp -/

/-- Spec-side fixed-width rendering: exactly `width` decimal digits of `v`
(the low-order ones), most significant first. -/
def fixed_digits : Nat → Nat → CStr
  | 0, _ => []
  | width + 1, v => fixed_digits width (v / 10) ++ [digit (v % 10)]

/-- Spec-side rendering `YYYYMMDDHHMM` of a time at UTC: four digits of the
year, then two each of month, day of month, hour and minute. -/
def render_YYYYMMDDHHMM (bucket : Int) : CStr :=
  let t := gmtime_r bucket
  fixed_digits 4 (t.tm_year + 1900).toNat ++ fixed_digits 2 (t.tm_mon + 1).toNat
    ++ fixed_digits 2 t.tm_mday.toNat ++ fixed_digits 2 t.tm_hour.toNat
    ++ fixed_digits 2 t.tm_min.toNat

/-! ## Definitions used to state the claims -/

/-- Claim-side definition of "recording failed", given the state `w1` reached
after the connect step: no connection is available, or the reply to the first
`HINCRBY` is NULL or an error reply, or the reply to the second one is. -/
def recording_failed (be : Backend) (w1 : World) (key_ip key_ua ip ua : CStr) : Prop :=
  match w1.g_child_ctx with
  | some { ctx := some c } =>
    (be.redisCommand w1.trace c (Command.HINCRBY key_ip ip 1) = redisReply.null ∨
      be.redisCommand w1.trace c (Command.HINCRBY key_ip ip 1) = redisReply.error) ∨
    (be.redisCommand (w1.trace ++ [Event.command c (Command.HINCRBY key_ip ip 1)]) c
        (Command.HINCRBY key_ua ua 1) = redisReply.null ∨
      be.redisCommand (w1.trace ++ [Event.command c (Command.HINCRBY key_ip ip 1)]) c
        (Command.HINCRBY key_ua ua 1) = redisReply.error)
  | _ => True

/-- A backend that cannot be reached: every connect returns NULL. -/
def backend_down : Backend :=
  { redisConnectWithTimeout := fun _ _ _ => ConnectResult.null
    redisCommand := fun _ _ _ => redisReply.null }

/-- A backend that accepts every connect (context 1) and every command. -/
def backend_up : Backend :=
  { redisConnectWithTimeout := fun _ _ _ => ConnectResult.ok 1
    redisCommand := fun _ _ _ => redisReply.other }

/-- A backend on which `HINCRBY` works and every `EXPIRE` fails with a NULL reply. -/
def backend_expire_fails : Backend :=
  { redisConnectWithTimeout := fun _ _ _ => ConnectResult.ok 1
    redisCommand := fun _ _ cmd =>
      match cmd with
      | Command.EXPIRE _ _ => redisReply.null
      | _ => redisReply.other }

/-- A backend that accepts connects and answers every `HINCRBY` with an error reply. -/
def backend_hincrby_fails : Backend :=
  { redisConnectWithTimeout := fun _ _ _ => ConnectResult.ok 1
    redisCommand := fun _ _ cmd =>
      match cmd with
      | Command.HINCRBY _ _ _ => redisReply.error
      | _ => redisReply.other }

/-- A backend on which the `HINCRBY` of the field `curl/8.0` gets a NULL reply and
every other command works. -/
def backend_ua_rejected : Backend :=
  { redisConnectWithTimeout := fun _ _ _ => ConnectResult.ok 1
    redisCommand := fun _ _ cmd =>
      match cmd with
      | Command.HINCRBY _ field _ =>
        if field = "curl/8.0".toList then redisReply.null else redisReply.other
      | _ => redisReply.other }

/-- A backend that accepts connects and answers every `SELECT` with an error reply. -/
def backend_select_fails : Backend :=
  { redisConnectWithTimeout := fun _ _ _ => ConnectResult.ok 1
    redisCommand := fun _ _ cmd =>
      match cmd with
      | Command.SELECT _ => redisReply.error
      | _ => redisReply.other }

/-- A backend that accepts connects and answers every `SELECT` with a NULL reply. -/
def backend_select_null : Backend :=
  { redisConnectWithTimeout := fun _ _ _ => ConnectResult.ok 1
    redisCommand := fun _ _ cmd =>
      match cmd with
      | Command.SELECT _ => redisReply.null
      | _ => redisReply.other }

/-- The request of the specification's example: a main request from
198.51.100.7 with User-Agent `curl/8.0`. -/
def example_request : request_rec :=
  { main := false
    user_agent := some "curl/8.0".toList
    useragent_ip := some "198.51.100.7".toList }

/-- The arrival time of the example request, 2024-01-01T00:07:13Z, in microseconds. -/
def example_now : Int := 1704067633000000

/-! ## The calendar model on known dates -/

/-- The model of `gmtime_r` and of the format on known instants: the epoch, the
second before it, leap days of 2000 and 2024, the non-leap year 2100 and the
first minute of the year 10000. -/
theorem format_ts_known_dates :
    format_ts 0 = "197001010000".toList ∧
    format_ts (-1) = "196912312359".toList ∧
    format_ts 951782400 = "200002290000".toList ∧
    format_ts 1709251199 = "202402292359".toList ∧
    format_ts 1709251200 = "202403010000".toList ∧
    format_ts 4107542399 = "210002282359".toList ∧
    format_ts 4107542400 = "210003010000".toList ∧
    format_ts 253402300799 = "999912312359".toList ∧
    format_ts 253402300800 = "1000001010000".toList := by
  decide

/-- The model of `atoi` on a few arguments. -/
theorem atoi_known_values :
    atoi "600".toList = 600 ∧ atoi "  -42abc".toList = -42 ∧ atoi "abc".toList = 0 ∧
    atoi "0".toList = 0 ∧ atoi "4294967297".toList = 1 := by
  decide

/-! ## Calendar lemmas -/

theorem civil_from_days_spec (days : Int) :
    ∃ era c q a doy mp e : Int,
      0 ≤ c ∧ c ≤ 3 ∧ 0 ≤ q ∧ q ≤ 24 ∧ 0 ≤ a ∧ a ≤ 3 ∧ 0 ≤ doy ∧ doy ≤ 365 ∧
      0 ≤ mp ∧ mp ≤ 11 ∧ 153 * mp ≤ 5 * doy + 2 ∧ 5 * doy + 2 < 153 * mp + 153 ∧
      5 * e ≤ 153 * mp + 2 ∧ 153 * mp + 2 < 5 * e + 5 ∧
      36524 * c + 1461 * q + 365 * a + doy < 146097 ∧
      days + 719468 = 146097 * era + 36524 * c + 1461 * q + 365 * a + doy ∧
      civil_from_days days =
        (100 * c + 4 * q + a + era * 400 + (if (if mp < 10 then mp + 3 else mp - 9) ≤ 2 then 1 else 0),
          (if mp < 10 then mp + 3 else mp - 9), doy - e + 1) := by
  have hz : days + 719468 = 146097 * ((days + 719468) / 146097) + (days + 719468) % 146097 := by
    omega
  have hz0 : 0 ≤ (days + 719468) % 146097 ∧ (days + 719468) % 146097 < 146097 := by omega
  simp only [civil_from_days]
  generalize (days + 719468) / 146097 = era at *
  generalize (days + 719468) % 146097 = doe at *
  have hc : 0 ≤ min 3 (doe / 36524) ∧ min 3 (doe / 36524) ≤ 3 ∧
      0 ≤ doe - min 3 (doe / 36524) * 36524 ∧ doe - min 3 (doe / 36524) * 36524 ≤ 36524 := by
    omega
  generalize min 3 (doe / 36524) = c at *
  have hq : doe - c * 36524 = 1461 * ((doe - c * 36524) / 1461) + (doe - c * 36524) % 1461 ∧
      0 ≤ (doe - c * 36524) / 1461 ∧ (doe - c * 36524) / 1461 ≤ 24 ∧
      0 ≤ (doe - c * 36524) % 1461 ∧ (doe - c * 36524) % 1461 < 1461 := by
    omega
  generalize (doe - c * 36524) / 1461 = q at *
  generalize (doe - c * 36524) % 1461 = dq at *
  have ha : 0 ≤ min 3 (dq / 365) ∧ min 3 (dq / 365) ≤ 3 ∧
      0 ≤ dq - min 3 (dq / 365) * 365 ∧ dq - min 3 (dq / 365) * 365 ≤ 365 := by
    omega
  generalize min 3 (dq / 365) = a at *
  have hmp : 0 ≤ (5 * (dq - a * 365) + 2) / 153 ∧ (5 * (dq - a * 365) + 2) / 153 ≤ 11 ∧
      153 * ((5 * (dq - a * 365) + 2) / 153) ≤ 5 * (dq - a * 365) + 2 ∧
      5 * (dq - a * 365) + 2 < 153 * ((5 * (dq - a * 365) + 2) / 153) + 153 := by
    omega
  generalize (5 * (dq - a * 365) + 2) / 153 = mp at *
  have he : 5 * ((153 * mp + 2) / 5) ≤ 153 * mp + 2 ∧
      153 * mp + 2 < 5 * ((153 * mp + 2) / 5) + 5 := by
    omega
  generalize (153 * mp + 2) / 5 = e at *
  refine ⟨era, c, q, a, dq - a * 365, mp, e, ?_⟩
  and_intros
  all_goals first | omega | rfl

theorem civil_from_days_inj (d1 d2 : Int) (h : civil_from_days d1 = civil_from_days d2) : d1 = d2 := by
  obtain ⟨era, c, q, a, doy, mp, e, h1, h2, h3, h4, h5, h6, h7, h8, h9, h10, h11, h12, h13, h14,
    h15, h16, h17⟩ := civil_from_days_spec d1
  obtain ⟨era', c', q', a', doy', mp', e', g1, g2, g3, g4, g5, g6, g7, g8, g9, g10, g11, g12, g13,
    g14, g15, g16, g17⟩ := civil_from_days_spec d2
  rw [h17, g17] at h
  simp only [Prod.mk.injEq] at h
  obtain ⟨hy, hm, hd⟩ := h
  have hmp : mp = mp' := by split_ifs at hm <;> omega
  subst hmp
  have he : e = e' := by omega
  have hdoy : doy = doy' := by omega
  have hyoe : 100 * c + 4 * q + a + era * 400 = 100 * c' + 4 * q' + a' + era' * 400 := by omega
  have hera : era = era' := by omega
  have hc : c = c' := by omega
  have hq : q = q' := by omega
  have ha : a = a' := by omega
  omega

theorem civil_bounds (d : Int) (h0 : 0 ≤ d) (h1 : d < 2932897) :
    1970 ≤ (civil_from_days d).1 ∧ (civil_from_days d).1 ≤ 9999 ∧
    1 ≤ (civil_from_days d).2.1 ∧ (civil_from_days d).2.1 ≤ 12 ∧
    1 ≤ (civil_from_days d).2.2 ∧ (civil_from_days d).2.2 ≤ 31 := by
  obtain ⟨era, c, q, a, doy, mp, e, h1, h2, h3, h4, h5, h6, h7, h8, h9, h10, h11, h12, h13, h14,
    h15, h16, h17⟩ := civil_from_days_spec d
  rw [h17]
  simp only []
  have e4 : 4 ≤ era := by omega
  have e24 : era ≤ 24 := by omega
  have lo : 1970 ≤ 100 * c + 4 * q + a + era * 400 + (if mp < 10 then 0 else 1) := by
    by_cases he : era = 4
    · have c3 : c = 3 := by omega
      have q17 : 17 ≤ q := by omega
      by_cases hq : q = 17
      · have a1 : 1 ≤ a := by omega
        split_ifs <;> omega
      · split_ifs <;> omega
    · split_ifs <;> omega
  have hi : 100 * c + 4 * q + a + era * 400 + (if mp < 10 then 0 else 1) ≤ 9999 := by
    by_cases he : era = 24
    · split_ifs <;> omega
    · split_ifs <;> omega
  split_ifs at lo hi ⊢ <;> omega

/-! ## Formatting lemmas -/

theorem digit_inj : ∀ a < 10, ∀ b < 10, digit a = digit b → a = b := by decide

theorem fixed_digits_length (w v : Nat) : (fixed_digits w v).length = w := by
  induction w generalizing v with
  | zero => rfl
  | succ w ih => simp [fixed_digits, ih]

theorem fixed_digits_zero (w : Nat) : fixed_digits w 0 = List.replicate w '0' := by
  induction w with
  | zero => rfl
  | succ w ih =>
    simp only [fixed_digits, Nat.zero_div, ih, Nat.zero_mod]
    rw [List.replicate_succ']
    rfl

theorem zero_pad_snoc (w : Nat) (s : CStr) (c : Char) :
    zero_pad (w + 1) (s ++ [c]) = zero_pad w s ++ [c] := by
  simp [zero_pad]

/-- Padding the digits of a number below `10 ^ w` gives its fixed-width rendering. -/
theorem zero_pad_dec (w : Nat) : ∀ fuel v : Nat, v < 10 ^ w → v < fuel →
    zero_pad w (if v = 0 then [] else dec fuel v) = fixed_digits w v := by
  induction w with
  | zero =>
    intro fuel v hv _
    have : v = 0 := by simpa using hv
    simp [this, zero_pad, fixed_digits]
  | succ w ih =>
    intro fuel v hv hf
    by_cases h0 : v = 0
    · subst h0
      simp only [if_true, zero_pad, List.length_nil, Nat.sub_zero, List.append_nil]
      exact (fixed_digits_zero (w + 1)).symm
    · obtain ⟨f, rfl⟩ : ∃ f, fuel = f + 1 := ⟨fuel - 1, by omega⟩
      have h1 : v / 10 < 10 ^ w := by
        rw [Nat.div_lt_iff_lt_mul (by norm_num)]
        rw [pow_succ] at hv
        exact hv
      have h2 : v / 10 < f := by omega
      have := ih f (v / 10) h1 h2
      simp only [h0, if_false, dec, fixed_digits, zero_pad_snoc]
      rw [← this]

theorem fmt_0d_eq_fixed (w : Nat) (v : Int) (hw : 0 < w) (h0 : 0 ≤ v) (h1 : v < 10 ^ w) :
    fmt_0d w v = fixed_digits w v.toNat := by
  obtain ⟨n, rfl⟩ := Int.eq_ofNat_of_zero_le h0
  have hn : n < 10 ^ w := by exact_mod_cast h1
  obtain ⟨k, rfl⟩ : ∃ k, w = k + 1 := ⟨w - 1, by omega⟩
  have hlt : ¬ ((n : Int) < 0) := by omega
  simp only [fmt_0d, hlt, if_false, Int.natAbs_ofNat, Int.toNat_ofNat]
  by_cases hz : n = 0
  · subst hz
    simp only [dec, Nat.zero_div, if_true, List.nil_append, Nat.zero_mod, fixed_digits]
    rw [fixed_digits_zero]
    simp [zero_pad]
  · have := zero_pad_dec (k + 1) (n + 1) n hn (by omega)
    simpa [hz] using this

/-! ## Key derivation lemmas -/

theorem gmtime_r_bounds (b : Int) (h0 : 0 ≤ b) (h1 : b < 253402300800) :
    0 ≤ (gmtime_r b).tm_year + 1900 ∧ (gmtime_r b).tm_year + 1900 < 10 ^ 4 ∧
    0 ≤ (gmtime_r b).tm_mon + 1 ∧ (gmtime_r b).tm_mon + 1 < 10 ^ 2 ∧
    0 ≤ (gmtime_r b).tm_mday ∧ (gmtime_r b).tm_mday < 10 ^ 2 ∧
    0 ≤ (gmtime_r b).tm_hour ∧ (gmtime_r b).tm_hour < 10 ^ 2 ∧
    0 ≤ (gmtime_r b).tm_min ∧ (gmtime_r b).tm_min < 10 ^ 2 := by
  have hd := civil_bounds (b / 86400) (by omega) (by omega)
  simp only [gmtime_r]
  norm_num
  omega

/-- Before the year 10000 the text written into `ts` is the 12-digit rendering. -/
theorem format_ts_eq_render (b : Int) (h0 : 0 ≤ b) (h1 : b < 253402300800) :
    format_ts b = render_YYYYMMDDHHMM b := by
  obtain ⟨y0, y1, m0, m1, d0, d1, H0, H1, M0, M1⟩ := gmtime_r_bounds b h0 h1
  simp only [format_ts, render_YYYYMMDDHHMM]
  rw [fmt_0d_eq_fixed 4 _ (by norm_num) y0 y1, fmt_0d_eq_fixed 2 _ (by norm_num) m0 m1,
    fmt_0d_eq_fixed 2 _ (by norm_num) d0 d1, fmt_0d_eq_fixed 2 _ (by norm_num) H0 H1,
    fmt_0d_eq_fixed 2 _ (by norm_num) M0 M1]
  apply List.take_of_length_le
  simp [fixed_digits_length]

theorem render_length (b : Int) : (render_YYYYMMDDHHMM b).length = 12 := by
  simp [render_YYYYMMDDHHMM, fixed_digits_length]

theorem bucket_start_eq (B secs : Int) (hB : 0 < B) (h0 : 0 ≤ secs) :
    bucket_start B secs = some (B * (secs / B)) := by
  have hne : B ≠ 0 := by omega
  simp only [bucket_start, hne, if_false]
  rw [Int.tmod_eq_emod h0 (le_of_lt hB), Int.emod_def]
  congr 1
  ring

theorem bucket_bounds (B secs : Int) (hB : 0 < B) (h0 : 0 ≤ secs) :
    0 ≤ B * (secs / B) ∧ B * (secs / B) ≤ secs := by
  have h1 := Int.emod_nonneg secs (ne_of_gt hB)
  have h2 := Int.emod_add_ediv secs B
  have h3 : 0 ≤ secs / B := Int.ediv_nonneg h0 (le_of_lt hB)
  constructor
  · positivity
  · omega

/-- The keys when nothing is cut by a buffer. -/
theorem derive_keys_eq (pfx : CStr) (B secs : Int) (hB : 0 < B) (h0 : 0 ≤ secs)
    (h1 : secs < 253402300800) (hp : pfx.length ≤ 239) :
    derive_keys pfx B secs
      = some (pfx ++ ":ip:".toList ++ render_YYYYMMDDHHMM (B * (secs / B)),
          pfx ++ ":ua:".toList ++ render_YYYYMMDDHHMM (B * (secs / B))) := by
  obtain ⟨b0, b1⟩ := bucket_bounds B secs hB h0
  simp only [derive_keys, bucket_start_eq B secs hB h0]
  rw [format_ts_eq_render _ b0 (by omega)]
  have hip : (":ip:".toList).length = 4 := by decide
  have hua : (":ua:".toList).length = 4 := by decide
  simp only [snprintf]
  rw [List.take_of_length_le, List.take_of_length_le]
  · simp only [List.length_append, render_length, hua]; omega
  · simp only [List.length_append, render_length, hip]; omega

theorem fixed_digits_two_inj (a b : Nat) (ha : a < 100) (hb : b < 100)
    (h : fixed_digits 2 a = fixed_digits 2 b) : a = b := by
  simp only [fixed_digits, List.nil_append, List.singleton_append, List.cons.injEq, and_true] at h
  have h1 := digit_inj _ (Nat.mod_lt _ (by norm_num)) _ (Nat.mod_lt _ (by norm_num)) h.1
  have h2 := digit_inj _ (Nat.mod_lt _ (by norm_num)) _ (Nat.mod_lt _ (by norm_num)) h.2
  omega

theorem fixed_digits_four_inj (a b : Nat) (ha : a < 10000) (hb : b < 10000)
    (h : fixed_digits 4 a = fixed_digits 4 b) : a = b := by
  simp only [fixed_digits, List.nil_append, List.singleton_append, List.cons_append,
    List.cons.injEq, and_true] at h
  obtain ⟨h1, h2, h3, h4⟩ := h
  have h1 := digit_inj _ (Nat.mod_lt _ (by norm_num)) _ (Nat.mod_lt _ (by norm_num)) h1
  have h2 := digit_inj _ (Nat.mod_lt _ (by norm_num)) _ (Nat.mod_lt _ (by norm_num)) h2
  have h3 := digit_inj _ (Nat.mod_lt _ (by norm_num)) _ (Nat.mod_lt _ (by norm_num)) h3
  have h4 := digit_inj _ (Nat.mod_lt _ (by norm_num)) _ (Nat.mod_lt _ (by norm_num)) h4
  omega

/-- Two times before the year 10000 with the same rendering lie in the same minute. -/
theorem render_inj (b1 b2 : Int) (h1 : 0 ≤ b1) (h1' : b1 < 253402300800) (h2 : 0 ≤ b2)
    (h2' : b2 < 253402300800) (h : render_YYYYMMDDHHMM b1 = render_YYYYMMDDHHMM b2) :
    b1 / 60 = b2 / 60 := by
  obtain ⟨y0, y1, m0, m1, d0, d1, H0, H1, M0, M1⟩ := gmtime_r_bounds b1 h1 h1'
  obtain ⟨y0', y1', m0', m1', d0', d1', H0', H1', M0', M1'⟩ := gmtime_r_bounds b2 h2 h2'
  simp only [render_YYYYMMDDHHMM] at h
  obtain ⟨h, hM⟩ := List.append_inj' h (by simp [fixed_digits_length])
  obtain ⟨h, hH⟩ := List.append_inj' h (by simp [fixed_digits_length])
  obtain ⟨h, hd⟩ := List.append_inj' h (by simp [fixed_digits_length])
  obtain ⟨hy, hm⟩ := List.append_inj' h (by simp [fixed_digits_length])
  have eM := fixed_digits_two_inj _ _ (by omega) (by omega) hM
  have eH := fixed_digits_two_inj _ _ (by omega) (by omega) hH
  have ed := fixed_digits_two_inj _ _ (by omega) (by omega) hd
  have em := fixed_digits_two_inj _ _ (by omega) (by omega) hm
  have ey := fixed_digits_four_inj _ _ (by omega) (by omega) hy
  have hciv : civil_from_days (b1 / 86400) = civil_from_days (b2 / 86400) := by
    simp only [gmtime_r] at eM eH ed em ey y0 y0' m0 m0' d0 d0'
    apply Prod.ext
    · omega
    · apply Prod.ext
      · omega
      · omega
  have hdays := civil_from_days_inj _ _ hciv
  simp only [gmtime_r] at eM eH H0 H0' M0 M0'
  omega

/-! ## Lemmas about the request hook -/

theorem derive_keys_defined (pfx : CStr) (B secs : Int) (hB : B ≠ 0) :
    ∃ key_ip key_ua, derive_keys pfx B secs = some (key_ip, key_ua) := by
  simp [derive_keys, bucket_start, hB]

theorem set_ctx_some (v : Option redisContext) (g : rl_child_ctx) (tr : List Event) :
    set_ctx v { g_child_ctx := some g, trace := tr }
      = some { g_child_ctx := some { ctx := v }, trace := tr } := rfl

/-- Once `g_child_ctx` is allocated, `rl_connect_child` returns, leaves it
allocated and only appends to the trace, starting with the connect attempt. -/
theorem rl_connect_child_shape (be : Backend) (cfg : rl_cfg) (g : rl_child_ctx)
    (tr : List Event) :
    ∃ v rest, rl_connect_child be cfg { g_child_ctx := some g, trace := tr }
        = some { g_child_ctx := some { ctx := v },
                 trace := tr ++ Event.connect cfg.host cfg.port :: rest }
      ∧ (∀ k f n c, Event.command c (Command.HINCRBY k f n) ∉ rest) := by
  simp only [rl_connect_child]
  cases be.redisConnectWithTimeout tr cfg.host cfg.port with
  | null => exact ⟨none, [], by simp [set_ctx], by simp⟩
  | err h => exact ⟨none, [Event.free h], by simp [set_ctx], by simp⟩
  | ok h =>
    by_cases hdb : cfg.db > 0
    · by_cases hr : reply_failed (be.redisCommand (tr ++ [Event.connect cfg.host cfg.port]) h
          (Command.SELECT cfg.db)) = true
      · exact ⟨none, [Event.command h (Command.SELECT cfg.db), Event.free h],
          by simp [set_ctx, hdb, hr], by simp⟩
      · exact ⟨some h, [Event.command h (Command.SELECT cfg.db)],
          by simp [set_ctx, hdb, hr], by simp⟩
    · exact ⟨some h, [], by simp [set_ctx, hdb], by simp⟩

theorem ensure_connected_shape (be : Backend) (cfg : rl_cfg) (g : rl_child_ctx)
    (tr : List Event) :
    ∃ v rest, ensure_connected be cfg { g_child_ctx := some g, trace := tr }
        = some { g_child_ctx := some { ctx := v }, trace := tr ++ rest } := by
  simp only [ensure_connected]
  by_cases h : no_ctx { g_child_ctx := some g, trace := tr } = true
  · obtain ⟨v, rest, hr, _⟩ := rl_connect_child_shape be cfg g tr
    exact ⟨v, _, by simp [h, hr]; rfl⟩
  · exact ⟨g.ctx, [], by simp [h]⟩

theorem ensure_connected_connected (be : Backend) (cfg : rl_cfg) (c : redisContext)
    (tr : List Event) :
    ensure_connected be cfg { g_child_ctx := some { ctx := some c }, trace := tr }
      = some { g_child_ctx := some { ctx := some c }, trace := tr } := by
  simp [ensure_connected, no_ctx]

theorem ensure_connected_absent (be : Backend) (cfg : rl_cfg) (tr : List Event) :
    ensure_connected be cfg { g_child_ctx := some { ctx := none }, trace := tr }
      = rl_connect_child be cfg { g_child_ctx := some { ctx := none }, trace := tr } := by
  simp [ensure_connected, no_ctx]

/-- The commands of the connect step when it ends with a connection: `SELECT db`
after a reconnect with `db > 0`, none otherwise. -/
theorem ensure_connected_commands (be : Backend) (cfg : rl_cfg) (g : rl_child_ctx)
    (tr : List Event) (w1 : World) (c : redisContext)
    (hconn : ensure_connected be cfg (World.mk (some g) tr) = some w1)
    (hctx : w1.g_child_ctx = some { ctx := some c }) :
    ∃ pre, w1.trace = tr ++ pre ∧
      commands_of pre = (if g.ctx = none ∧ cfg.db > 0 then [Command.SELECT cfg.db] else []) := by
  obtain ⟨gc⟩ := g
  cases gc with
  | some c0 =>
    rw [ensure_connected_connected] at hconn
    cases hconn
    exact ⟨[], by simp, by simp [commands_of]⟩
  | none =>
    rw [ensure_connected_absent] at hconn
    simp only [rl_connect_child] at hconn
    cases hc : be.redisConnectWithTimeout tr cfg.host cfg.port with
    | null =>
      rw [hc] at hconn
      simp only [set_ctx] at hconn
      cases hconn
      cases hctx
    | err h =>
      rw [hc] at hconn
      simp only [set_ctx] at hconn
      cases hconn
      cases hctx
    | ok h =>
      rw [hc] at hconn
      by_cases hdb : cfg.db > 0
      · by_cases hr : reply_failed (be.redisCommand (tr ++ [Event.connect cfg.host cfg.port]) h
            (Command.SELECT cfg.db)) = true
        · simp only [hdb, hr, if_true, set_ctx] at hconn
          cases hconn
          cases hctx
        · simp only [hdb, hr, if_true, Bool.false_eq_true, if_false, set_ctx] at hconn
          cases hconn
          exact ⟨[Event.connect cfg.host cfg.port, Event.command h (Command.SELECT cfg.db)],
            by simp, by simp [commands_of, hdb]⟩
      · simp only [hdb, if_false, set_ctx] at hconn
        cases hconn
        exact ⟨[Event.connect cfg.host cfg.port], by simp, by simp [commands_of, hdb]⟩

/-- The hook without a usable connection after the connect step. -/
theorem rl_log_transaction_no_connection (be : Backend) (cfg : rl_cfg) (r : request_rec)
    (now : Int) (w w1 : World) (key_ip key_ua : CStr) (hmain : r.main = false)
    (hkeys : derive_keys cfg.pfx cfg.bucket_seconds (Int.tdiv now APR_USEC_PER_SEC)
      = some (key_ip, key_ua))
    (hconn : ensure_connected be cfg w = some w1)
    (hctx : w1.g_child_ctx = some { ctx := none }) :
    rl_log_transaction be cfg r now w = some (fail_status cfg, w1) := by
  simp [rl_log_transaction, hmain, hkeys, hconn, hctx]

/-- The hook with the connection `c` in hand after the connect step. -/
theorem rl_log_transaction_connected (be : Backend) (cfg : rl_cfg) (r : request_rec)
    (now : Int) (w w1 : World) (key_ip key_ua : CStr) (c : redisContext)
    (hmain : r.main = false)
    (hkeys : derive_keys cfg.pfx cfg.bucket_seconds (Int.tdiv now APR_USEC_PER_SEC)
      = some (key_ip, key_ua))
    (hconn : ensure_connected be cfg w = some w1)
    (hctx : w1.g_child_ctx = some { ctx := some c }) :
    rl_log_transaction be cfg r now w =
      if reply_failed (be.redisCommand w1.trace c (Command.HINCRBY key_ip (ip_field r) 1)) then
        some (fail_status cfg, World.mk (some { ctx := none })
          (w1.trace ++ [Event.command c (Command.HINCRBY key_ip (ip_field r) 1),
            Event.free c]))
      else if reply_failed (be.redisCommand
          (w1.trace ++ [Event.command c (Command.HINCRBY key_ip (ip_field r) 1)]) c
          (Command.HINCRBY key_ua (ua_field r) 1)) then
        some (fail_status cfg, World.mk (some { ctx := none })
          (w1.trace ++ [Event.command c (Command.HINCRBY key_ip (ip_field r) 1),
            Event.command c (Command.HINCRBY key_ua (ua_field r) 1), Event.free c]))
      else
        some (DECLINED, World.mk (some { ctx := some c })
          (w1.trace ++ [Event.command c (Command.HINCRBY key_ip (ip_field r) 1),
            Event.command c (Command.HINCRBY key_ua (ua_field r) 1),
            Event.command c (Command.EXPIRE key_ip cfg.retention_seconds),
            Event.command c (Command.EXPIRE key_ua cfg.retention_seconds)])) := by
  simp only [rl_log_transaction, hmain, hkeys, hconn, hctx]
  simp only [Bool.false_eq_true, if_false, List.append_assoc, List.singleton_append]
  split_ifs <;> rfl

/-- With a bucket width of 0 a main request divides by zero. -/
theorem rl_log_transaction_zero (be : Backend) (cfg : rl_cfg) (r : request_rec) (now : Int)
    (w : World) (hB : cfg.bucket_seconds = 0) (hmain : r.main = false) :
    rl_log_transaction be cfg r now w = none := by
  simp [rl_log_transaction, hmain, derive_keys, bucket_start, hB]

theorem fail_status_cases (cfg : rl_cfg) :
    (cfg.fail_open = 0 ∧ fail_status cfg = HTTP_SERVICE_UNAVAILABLE) ∨
    (cfg.fail_open ≠ 0 ∧ fail_status cfg = DECLINED) := by
  by_cases h : cfg.fail_open = 0 <;> simp [fail_status, h]

theorem connect_count_append (a b : List Event) :
    connect_count (a ++ b) = connect_count a + connect_count b := by
  induction a with
  | nil => simp [connect_count]
  | cons e es ih => cases e <;> simp [connect_count, ih]; omega

theorem commands_of_append (a b : List Event) :
    commands_of (a ++ b) = commands_of a ++ commands_of b := by
  induction a with
  | nil => simp [commands_of]
  | cons e es ih => cases e <;> simp [commands_of, ih]

/-! ## Claims about key derivation -/

/-- C1 (bucketing determinism): for a positive bucket width `B`, any key prefix and
two times `t1`, `t2` at or after the epoch with `floor(t1/B) = floor(t2/B)`, the
key derivation succeeds for both and yields the same `key_ip` and the same
`key_ua`. -/
theorem bucketing_determinism (pfx : CStr) (B t1 t2 : Int) (hB : 0 < B) (h1 : 0 ≤ t1)
    (h2 : 0 ≤ t2) (h : t1 / B = t2 / B) :
    ∃ key_ip key_ua, derive_keys pfx B t1 = some (key_ip, key_ua) ∧
      derive_keys pfx B t2 = some (key_ip, key_ua) := by
  simp only [derive_keys, bucket_start_eq B t1 hB h1, bucket_start_eq B t2 hB h2, h]
  exact ⟨_, _, rfl, rfl⟩

/-- Witness of C1 at the two request times of the specification's example
(00:07:13 and 00:09:59 on 2024-01-01, bucket width 600). -/
theorem bucketing_determinism_witness :
    ∃ key_ip key_ua, derive_keys "rl".toList 600 1704067633 = some (key_ip, key_ua) ∧
      derive_keys "rl".toList 600 1704067799 = some (key_ip, key_ua) :=
  bucketing_determinism "rl".toList 600 1704067633 1704067799 (by decide) (by decide)
    (by decide) (by decide)

set_option maxRecDepth 100000 in
/-- C3, the claim as stated fails: with a 240-byte prefix the 256-byte key buffer
cuts the last digit of the timestamp, and from the year 10000 on the timestamp
has 13 digits, so the keys are not the prefix, the discriminator and the 12-digit
rendering. -/
theorem key_format_counterexample :
    derive_keys (List.replicate 240 'a') 600 1704067633
      ≠ some (List.replicate 240 'a' ++ ":ip:".toList ++ render_YYYYMMDDHHMM (1704067633 - 1704067633 % 600),
          List.replicate 240 'a' ++ ":ua:".toList ++ render_YYYYMMDDHHMM (1704067633 - 1704067633 % 600))
    ∧ derive_keys "rl".toList 600 253402300800
      ≠ some ("rl".toList ++ ":ip:".toList ++ render_YYYYMMDDHHMM (253402300800 - 253402300800 % 600),
          "rl".toList ++ ":ua:".toList ++ render_YYYYMMDDHHMM (253402300800 - 253402300800 % 600))
    ∧ derive_keys "rl".toList 600 253402300800
      = some ("rl:ip:1000001010000".toList, "rl:ua:1000001010000".toList) := by
  decide

/-- C3 as amended (key format): for a time at or after the epoch and before the
year 10000, a positive bucket width and a key prefix of at most 239 bytes, the
keys are exactly `prefix ++ ":ip:" ++ ts` and `prefix ++ ":ua:" ++ ts` where `ts` is
the 12-digit UTC `YYYYMMDDHHMM` rendering of `secs - secs mod bucket_seconds`. With
width 600 and prefix `rl` the times 1704067633 and 1704067799 both give
`rl:ip:202401010000` and `rl:ua:202401010000`. -/
theorem key_format :
    (∀ (pfx : CStr) (B secs : Int), 0 < B → 0 ≤ secs → secs < 253402300800 →
      pfx.length ≤ 239 →
      derive_keys pfx B secs
        = some (pfx ++ ":ip:".toList ++ render_YYYYMMDDHHMM (secs - secs % B),
            pfx ++ ":ua:".toList ++ render_YYYYMMDDHHMM (secs - secs % B))
      ∧ (render_YYYYMMDDHHMM (secs - secs % B)).length = 12)
    ∧ derive_keys "rl".toList 600 1704067633
        = some ("rl:ip:202401010000".toList, "rl:ua:202401010000".toList)
    ∧ derive_keys "rl".toList 600 1704067799
        = some ("rl:ip:202401010000".toList, "rl:ua:202401010000".toList) := by
  refine ⟨?_, by decide, by decide⟩
  intro pfx B secs hB h0 h1 hp
  have hb : secs - secs % B = B * (secs / B) := by
    rw [Int.emod_def]; ring
  rw [hb]
  exact ⟨derive_keys_eq pfx B secs hB h0 h1 hp, render_length _⟩

/-- Witness of C3 as amended at the specification's example request. -/
theorem key_format_witness :
    derive_keys "rl".toList 600 1704067633
        = some ("rl".toList ++ ":ip:".toList ++ render_YYYYMMDDHHMM (1704067633 - 1704067633 % 600),
            "rl".toList ++ ":ua:".toList ++ render_YYYYMMDDHHMM (1704067633 - 1704067633 % 600))
      ∧ (render_YYYYMMDDHHMM (1704067633 - 1704067633 % 600)).length = 12 :=
  key_format.1 "rl".toList 600 1704067633 (by decide) (by decide) (by decide) (by decide)

set_option maxRecDepth 100000 in
/-- C4, the claim as stated fails: with a bucket width below 60 two adjacent
windows fall into one minute (width 1, times 0 and 1); with a 240-byte prefix
the key buffer cuts the digit that differs (width 60, times 0 and 60); and from
the year 10000 on the same happens with a 239-byte prefix. -/
theorem adjacent_windows_counterexample :
    ((1 : Int) / 1 = 0 / 1 + 1 ∧ derive_keys "rl".toList 1 0 = derive_keys "rl".toList 1 1)
    ∧ ((60 : Int) / 60 = 0 / 60 + 1 ∧
        derive_keys (List.replicate 240 'a') 60 0 = derive_keys (List.replicate 240 'a') 60 60)
    ∧ ((253402300860 : Int) / 60 = 253402300800 / 60 + 1 ∧
        derive_keys (List.replicate 239 'a') 60 253402300800
          = derive_keys (List.replicate 239 'a') 60 253402300860) := by
  decide

/-- C4 as amended (adjacent windows get distinct keys): for a bucket width of at
least 60 seconds, a key prefix of at most 239 bytes and two times at or after
the epoch and before the year 10000 that fall in adjacent windows
(`floor(t2/B) = floor(t1/B) + 1`), the key derivation succeeds for both, the two
`key_ip` differ and the two `key_ua` differ. -/
theorem adjacent_windows_distinct (pfx : CStr) (B t1 t2 : Int) (hB : 60 ≤ B) (h1 : 0 ≤ t1)
    (h2 : t2 < 253402300800) (hp : pfx.length ≤ 239) (hadj : t2 / B = t1 / B + 1) :
    ∃ ip1 ua1 ip2 ua2, derive_keys pfx B t1 = some (ip1, ua1) ∧
      derive_keys pfx B t2 = some (ip2, ua2) ∧ ip1 ≠ ip2 ∧ ua1 ≠ ua2 := by
  have hBpos : 0 < B := by omega
  have hq1 : 0 ≤ t1 / B := Int.ediv_nonneg h1 (le_of_lt hBpos)
  have h2nn : 0 ≤ t2 := by
    by_contra hneg
    have : t2 / B < 0 := Int.ediv_neg' (by omega) hBpos
    omega
  obtain ⟨b1lo, b1hi⟩ := bucket_bounds B t1 hBpos h1
  obtain ⟨b2lo, b2hi⟩ := bucket_bounds B t2 hBpos h2nn
  have hstep : B * (t2 / B) = B * (t1 / B) + B := by rw [hadj]; ring
  have ht1 : t1 < 253402300800 := by
    have := Int.emod_add_ediv t1 B
    have := Int.emod_lt_of_pos t1 hBpos
    omega
  have hne : render_YYYYMMDDHHMM (B * (t1 / B)) ≠ render_YYYYMMDDHHMM (B * (t2 / B)) := by
    intro heq
    have := render_inj _ _ b1lo (by omega) b2lo (by omega) heq
    omega
  refine ⟨_, _, _, _, derive_keys_eq pfx B t1 hBpos h1 ht1 hp,
    derive_keys_eq pfx B t2 hBpos h2nn h2 hp, ?_, ?_⟩
  · intro h
    exact hne (List.append_cancel_left h)
  · intro h
    exact hne (List.append_cancel_left h)

/-- Witness of C4 as amended: the windows starting 2024-01-01 00:00 and 00:10. -/
theorem adjacent_windows_distinct_witness :
    ∃ ip1 ua1 ip2 ua2, derive_keys "rl".toList 600 1704067633 = some (ip1, ua1) ∧
      derive_keys "rl".toList 600 1704067800 = some (ip2, ua2) ∧ ip1 ≠ ip2 ∧ ua1 ≠ ua2 :=
  adjacent_windows_distinct "rl".toList 600 1704067633 1704067800 (by decide) (by decide)
    (by decide) (by decide) (by decide)

/-! ## Claims about the request hook and the connection -/

/-- C2 (failure policy): for a main request, a configuration with a non-zero
bucket width and a process whose `g_child_ctx` is allocated, `rl_log_transaction`
returns; it returns `HTTP_SERVICE_UNAVAILABLE` if and only if `fail_open` is 0 and
recording failed (no connection after the connect step, or a NULL or error reply
to the first or to the second `HINCRBY`), and `DECLINED` in every other case,
whichever of the three causes occurred. -/
theorem failure_policy (be : Backend) (cfg : rl_cfg) (r : request_rec) (now : Int)
    (g : rl_child_ctx) (tr : List Event) (hmain : r.main = false)
    (hB : cfg.bucket_seconds ≠ 0) :
    ∃ key_ip key_ua w1 ret w',
      derive_keys cfg.pfx cfg.bucket_seconds (Int.tdiv now APR_USEC_PER_SEC)
        = some (key_ip, key_ua) ∧
      ensure_connected be cfg (World.mk (some g) tr) = some w1 ∧
      rl_log_transaction be cfg r now (World.mk (some g) tr) = some (ret, w') ∧
      (ret = HTTP_SERVICE_UNAVAILABLE ↔
        cfg.fail_open = 0 ∧
          recording_failed be w1 key_ip key_ua (r.useragent_ip.getD "-".toList)
            (r.user_agent.getD "-".toList)) ∧
      (ret = HTTP_SERVICE_UNAVAILABLE ∨ ret = DECLINED) := by
  have hrf : ∀ x : redisReply,
      reply_failed x = true ↔ x = redisReply.null ∨ x = redisReply.error := by
    intro x
    cases x <;> simp [reply_failed]
  obtain ⟨key_ip, key_ua, hkeys⟩ :=
    derive_keys_defined cfg.pfx cfg.bucket_seconds (Int.tdiv now APR_USEC_PER_SEC) hB
  obtain ⟨v, rest, hconn⟩ := ensure_connected_shape be cfg g tr
  have hne : HTTP_SERVICE_UNAVAILABLE ≠ DECLINED := by decide
  cases v with
  | none =>
    refine ⟨key_ip, key_ua, _, _, _, hkeys, hconn,
      rl_log_transaction_no_connection be cfg r now _ _ key_ip key_ua hmain hkeys hconn rfl, ?_, ?_⟩
    · rcases fail_status_cases cfg with ⟨h0, hs⟩ | ⟨h0, hs⟩
      · simp [hs, h0, recording_failed]
      · simp [hs, h0, hne.symm]
    · rcases fail_status_cases cfg with ⟨_, hs⟩ | ⟨_, hs⟩ <;> simp [hs]
  | some c =>
    have hrun := rl_log_transaction_connected be cfg r now _ _ key_ip key_ua c hmain hkeys
      hconn rfl
    simp only [ip_field, ua_field] at hrun
    have hrec : recording_failed be (World.mk (some { ctx := some c }) (tr ++ rest)) key_ip
        key_ua (r.useragent_ip.getD "-".toList) (r.user_agent.getD "-".toList) ↔
        (reply_failed (be.redisCommand (tr ++ rest) c
          (Command.HINCRBY key_ip (r.useragent_ip.getD "-".toList) 1)) = true ∨
        reply_failed (be.redisCommand (tr ++ rest ++
          [Event.command c (Command.HINCRBY key_ip (r.useragent_ip.getD "-".toList) 1)]) c
          (Command.HINCRBY key_ua (r.user_agent.getD "-".toList) 1)) = true) := by
      simp only [recording_failed, hrf]
    by_cases h1 : reply_failed (be.redisCommand (tr ++ rest) c
        (Command.HINCRBY key_ip (r.useragent_ip.getD "-".toList) 1)) = true
    · rw [if_pos h1] at hrun
      refine ⟨key_ip, key_ua, _, _, _, hkeys, hconn, hrun, ?_, ?_⟩
      · rw [hrec]
        rcases fail_status_cases cfg with ⟨h0, hs⟩ | ⟨h0, hs⟩
        · exact ⟨fun _ => ⟨h0, Or.inl h1⟩, fun _ => hs⟩
        · exact ⟨fun h => absurd (hs.symm.trans h) hne.symm, fun h => absurd h.1 h0⟩
      · rcases fail_status_cases cfg with ⟨_, hs⟩ | ⟨_, hs⟩ <;> simp [hs]
    · rw [if_neg h1] at hrun
      by_cases h2 : reply_failed (be.redisCommand (tr ++ rest ++
          [Event.command c (Command.HINCRBY key_ip (r.useragent_ip.getD "-".toList) 1)]) c
          (Command.HINCRBY key_ua (r.user_agent.getD "-".toList) 1)) = true
      · rw [if_pos h2] at hrun
        refine ⟨key_ip, key_ua, _, _, _, hkeys, hconn, hrun, ?_, ?_⟩
        · rw [hrec]
          rcases fail_status_cases cfg with ⟨h0, hs⟩ | ⟨h0, hs⟩
          · exact ⟨fun _ => ⟨h0, Or.inr h2⟩, fun _ => hs⟩
          · exact ⟨fun h => absurd (hs.symm.trans h) hne.symm, fun h => absurd h.1 h0⟩
        · rcases fail_status_cases cfg with ⟨_, hs⟩ | ⟨_, hs⟩ <;> simp [hs]
      · rw [if_neg h2] at hrun
        refine ⟨key_ip, key_ua, _, _, _, hkeys, hconn, hrun, ?_, Or.inr rfl⟩
        rw [hrec]
        exact ⟨fun h => absurd h.symm hne, fun h => (h.2.elim (absurd · h1) (absurd · h2))⟩

/-- Witness of C2: the example request, Connected with handle 1, on a backend
that answers the first `HINCRBY` with an error reply, with `fail_open` switched
off. Then the three causes one by one (unreachable backend, error reply to the
first `HINCRBY`, NULL reply to the second): each gives `HTTP_SERVICE_UNAVAILABLE`
with `fail_open` 0 and `DECLINED` with `fail_open` 1, and a working backend gives
`DECLINED` with `fail_open` 0. -/
theorem failure_policy_witness :
    (∃ key_ip key_ua w1 ret w',
      derive_keys ({ rl_create_srv with fail_open := 0 } : rl_cfg).pfx
          ({ rl_create_srv with fail_open := 0 } : rl_cfg).bucket_seconds
          (Int.tdiv example_now APR_USEC_PER_SEC)
        = some (key_ip, key_ua) ∧
      ensure_connected backend_hincrby_fails { rl_create_srv with fail_open := 0 }
        (World.mk (some { ctx := some 1 }) []) = some w1 ∧
      rl_log_transaction backend_hincrby_fails { rl_create_srv with fail_open := 0 }
        example_request example_now (World.mk (some { ctx := some 1 }) []) = some (ret, w') ∧
      (ret = HTTP_SERVICE_UNAVAILABLE ↔
        ({ rl_create_srv with fail_open := 0 } : rl_cfg).fail_open = 0 ∧
          recording_failed backend_hincrby_fails w1 key_ip key_ua
            (example_request.useragent_ip.getD "-".toList)
            (example_request.user_agent.getD "-".toList)) ∧
      (ret = HTTP_SERVICE_UNAVAILABLE ∨ ret = DECLINED))
    ∧ (rl_log_transaction backend_down { rl_create_srv with fail_open := 0 } example_request
        example_now (World.mk (some { ctx := none }) [])).map Prod.fst
        = some HTTP_SERVICE_UNAVAILABLE
    ∧ (rl_log_transaction backend_hincrby_fails { rl_create_srv with fail_open := 0 }
        example_request example_now (World.mk (some { ctx := some 1 }) [])).map Prod.fst
        = some HTTP_SERVICE_UNAVAILABLE
    ∧ (rl_log_transaction backend_ua_rejected { rl_create_srv with fail_open := 0 }
        example_request example_now (World.mk (some { ctx := some 1 }) [])).map Prod.fst
        = some HTTP_SERVICE_UNAVAILABLE
    ∧ (rl_log_transaction backend_down rl_create_srv example_request
        example_now (World.mk (some { ctx := none }) [])).map Prod.fst = some DECLINED
    ∧ (rl_log_transaction backend_hincrby_fails rl_create_srv
        example_request example_now (World.mk (some { ctx := some 1 }) [])).map Prod.fst
        = some DECLINED
    ∧ (rl_log_transaction backend_ua_rejected rl_create_srv
        example_request example_now (World.mk (some { ctx := some 1 }) [])).map Prod.fst
        = some DECLINED
    ∧ (rl_log_transaction backend_up { rl_create_srv with fail_open := 0 }
        example_request example_now (World.mk (some { ctx := some 1 }) [])).map Prod.fst
        = some DECLINED :=
  ⟨failure_policy backend_hincrby_fails { rl_create_srv with fail_open := 0 } example_request
    example_now { ctx := some 1 } [] rfl (by decide),
    by decide, by decide, by decide, by decide, by decide, by decide, by decide⟩

/-- C5 (TTL best-effort isolation): for a main request in which a connection `c`
is available after the connect step and both `HINCRBY` commands get a reply that
is neither null nor an error, `rl_log_transaction` returns `DECLINED` and leaves
the connection state at `c`, for every backend (so for every reply to the two
`EXPIRE` commands) and every value of `fail_open`. -/
theorem ttl_best_effort (be : Backend) (cfg : rl_cfg) (r : request_rec) (now : Int)
    (g : rl_child_ctx) (tr : List Event) (w1 : World) (key_ip key_ua : CStr)
    (c : redisContext) (hmain : r.main = false)
    (hkeys : derive_keys cfg.pfx cfg.bucket_seconds (Int.tdiv now APR_USEC_PER_SEC)
      = some (key_ip, key_ua))
    (hconn : ensure_connected be cfg (World.mk (some g) tr) = some w1)
    (hctx : w1.g_child_ctx = some { ctx := some c })
    (hi : reply_failed (be.redisCommand w1.trace c (Command.HINCRBY key_ip (ip_field r) 1))
      = false)
    (hu : reply_failed (be.redisCommand
        (w1.trace ++ [Event.command c (Command.HINCRBY key_ip (ip_field r) 1)]) c
        (Command.HINCRBY key_ua (ua_field r) 1)) = false) :
    ∃ w', rl_log_transaction be cfg r now (World.mk (some g) tr) = some (DECLINED, w') ∧
      w'.g_child_ctx = some { ctx := some c } := by
  have hrun := rl_log_transaction_connected be cfg r now _ _ key_ip key_ua c hmain hkeys
    hconn hctx
  rw [hi, hu] at hrun
  exact ⟨_, hrun, rfl⟩

/-- Witness of C5: the example request on a backend whose `EXPIRE` replies are
all NULL, with `fail_open` switched off. -/
theorem ttl_best_effort_witness :
    ∃ w', rl_log_transaction backend_expire_fails { rl_create_srv with fail_open := 0 }
        example_request example_now (World.mk (some { ctx := some 1 }) [])
          = some (DECLINED, w') ∧
      w'.g_child_ctx = some { ctx := some 1 } :=
  ttl_best_effort backend_expire_fails { rl_create_srv with fail_open := 0 } example_request
    example_now { ctx := some 1 } [] (World.mk (some { ctx := some 1 }) [])
    "rl:ip:202401010000".toList "rl:ua:202401010000".toList 1 rfl (by decide) (by decide)
    rfl (by decide) (by decide)

/-- C6 (connection reuse): a main request that starts Connected with handle `c`
(non-zero bucket width) makes no connect attempt, and if both `HINCRBY` commands
succeed the state afterwards is Connected with the same `c`. Hence from a
Connected state, handling any list of requests on a backend that answers every
`HINCRBY` on `c` after that point without failure returns, stays Connected with
`c` and makes no connect attempt. -/
theorem connection_reuse :
    (∀ (be : Backend) (cfg : rl_cfg) (r : request_rec) (now : Int) (c : redisContext)
        (tr : List Event), r.main = false → cfg.bucket_seconds ≠ 0 →
      ∃ ret w', rl_log_transaction be cfg r now (World.mk (some { ctx := some c }) tr)
          = some (ret, w') ∧
        connect_count w'.trace = connect_count tr ∧
        (∀ key_ip key_ua,
          derive_keys cfg.pfx cfg.bucket_seconds (Int.tdiv now APR_USEC_PER_SEC)
            = some (key_ip, key_ua) →
          reply_failed (be.redisCommand tr c (Command.HINCRBY key_ip (ip_field r) 1)) = false →
          reply_failed (be.redisCommand
            (tr ++ [Event.command c (Command.HINCRBY key_ip (ip_field r) 1)]) c
            (Command.HINCRBY key_ua (ua_field r) 1)) = false →
          w'.g_child_ctx = some { ctx := some c }))
    ∧ (∀ (be : Backend) (cfg : rl_cfg) (rs : List (request_rec × Int)) (c : redisContext)
        (tr : List Event), cfg.bucket_seconds ≠ 0 →
      (∀ tr' key field, tr <+: tr' →
        reply_failed (be.redisCommand tr' c (Command.HINCRBY key field 1)) = false) →
      ∃ w', run be cfg rs (World.mk (some { ctx := some c }) tr) = some w' ∧
        w'.g_child_ctx = some { ctx := some c } ∧
        connect_count w'.trace = connect_count tr) := by
  constructor
  · intro be cfg r now c tr hmain hB
    obtain ⟨key_ip, key_ua, hkeys⟩ :=
      derive_keys_defined cfg.pfx cfg.bucket_seconds (Int.tdiv now APR_USEC_PER_SEC) hB
    have hrun := rl_log_transaction_connected be cfg r now _ _ key_ip key_ua c hmain hkeys
      (ensure_connected_connected be cfg c tr) rfl
    simp only at hrun
    split_ifs at hrun with h1 h2
    · refine ⟨_, _, hrun, by simp [connect_count_append, connect_count], ?_⟩
      intro k1 k2 hk
      rw [hkeys] at hk
      cases hk
      simp [h1]
    · refine ⟨_, _, hrun, by simp [connect_count_append, connect_count], ?_⟩
      intro k1 k2 hk
      rw [hkeys] at hk
      cases hk
      simp [h2]
    · exact ⟨_, _, hrun, by simp [connect_count_append, connect_count], fun _ _ _ _ _ => rfl⟩
  · intro be cfg rs c
    induction rs with
    | nil => intro tr _ _; exact ⟨_, rfl, rfl, rfl⟩
    | cons x rs ih =>
      intro tr hB hok
      obtain ⟨r, now⟩ := x
      by_cases hmain : r.main = true
      · have hstep : rl_log_transaction be cfg r now (World.mk (some { ctx := some c }) tr)
            = some (DECLINED, World.mk (some { ctx := some c }) tr) := by
          simp [rl_log_transaction, hmain]
        obtain ⟨w', hw, hc, hn⟩ := ih tr hB hok
        exact ⟨w', by simp only [run, hstep]; exact hw, hc, hn⟩
      · have hmain' : r.main = false := by simpa using hmain
        obtain ⟨key_ip, key_ua, hkeys⟩ :=
          derive_keys_defined cfg.pfx cfg.bucket_seconds (Int.tdiv now APR_USEC_PER_SEC) hB
        have hstep := rl_log_transaction_connected be cfg r now _ _ key_ip key_ua c hmain'
          hkeys (ensure_connected_connected be cfg c tr) rfl
        simp only at hstep
        rw [hok tr _ _ (List.prefix_refl tr), hok _ _ _ (List.prefix_append tr _)] at hstep
        simp only [Bool.false_eq_true, if_false] at hstep
        obtain ⟨w', hw, hc, hn⟩ := ih _ hB
          (fun tr' k f hp => hok tr' k f ((List.prefix_append tr _).trans hp))
        refine ⟨w', by simp only [run, hstep]; exact hw, hc, ?_⟩
        rw [hn]
        simp [connect_count_append, connect_count]

/-- Witness of C6: the example request on a working backend, Connected with
handle 1, and then three such requests in a row. -/
theorem connection_reuse_witness :
    (∃ ret w', rl_log_transaction backend_up rl_create_srv example_request example_now
          (World.mk (some { ctx := some 1 }) []) = some (ret, w') ∧
        connect_count w'.trace = connect_count [] ∧
        w'.g_child_ctx = some { ctx := some 1 })
    ∧ (∃ w', run backend_up rl_create_srv
          [(example_request, example_now), (example_request, example_now + 1000000),
            (example_request, example_now + 700000000)]
          (World.mk (some { ctx := some 1 })
            [Event.connect rl_create_srv.host rl_create_srv.port]) = some w' ∧
        w'.g_child_ctx = some { ctx := some 1 } ∧
        connect_count w'.trace
          = connect_count [Event.connect rl_create_srv.host rl_create_srv.port]) := by
  refine ⟨?_, connection_reuse.2 backend_up rl_create_srv _ 1 _ (by decide)
    (fun _ _ _ _ => rfl)⟩
  obtain ⟨ret, w', h1, h2, h3⟩ :=
    connection_reuse.1 backend_up rl_create_srv example_request example_now 1 [] rfl
      (by decide)
  exact ⟨ret, w', h1, h2,
    h3 "rl:ip:202401010000".toList "rl:ua:202401010000".toList (by decide) rfl rfl⟩

/-- C8, the claim as stated fails: a main request that starts without a
connection, with `db = 1` and a working backend, has a connection available
after its connect step, and the commands it issues start with `SELECT 1`, so
they are not a prefix of the two `HINCRBY` and the two `EXPIRE`. -/
theorem command_order_counterexample :
    rl_log_transaction backend_up { rl_create_srv with db := 1 } example_request example_now
        (World.mk (some { ctx := none }) [])
      = some (DECLINED, World.mk (some { ctx := some 1 })
          [Event.connect "127.0.0.1".toList 6379,
            Event.command 1 (Command.SELECT 1),
            Event.command 1 (Command.HINCRBY "rl:ip:202401010000".toList "198.51.100.7".toList 1),
            Event.command 1 (Command.HINCRBY "rl:ua:202401010000".toList "curl/8.0".toList 1),
            Event.command 1 (Command.EXPIRE "rl:ip:202401010000".toList 1209600),
            Event.command 1 (Command.EXPIRE "rl:ua:202401010000".toList 1209600)])
    ∧ ¬ (commands_of [Event.connect "127.0.0.1".toList 6379,
            Event.command 1 (Command.SELECT 1),
            Event.command 1 (Command.HINCRBY "rl:ip:202401010000".toList "198.51.100.7".toList 1),
            Event.command 1 (Command.HINCRBY "rl:ua:202401010000".toList "curl/8.0".toList 1),
            Event.command 1 (Command.EXPIRE "rl:ip:202401010000".toList 1209600),
            Event.command 1 (Command.EXPIRE "rl:ua:202401010000".toList 1209600)]
        <+: [Command.HINCRBY "rl:ip:202401010000".toList "198.51.100.7".toList 1,
          Command.HINCRBY "rl:ua:202401010000".toList "curl/8.0".toList 1,
          Command.EXPIRE "rl:ip:202401010000".toList 1209600,
          Command.EXPIRE "rl:ua:202401010000".toList 1209600]) := by
  refine ⟨by decide, ?_⟩
  intro h
  have := h.length_le
  simp [commands_of] at this

/-- C8 as amended (command order and short-circuit): for a main request with
connection `c` available after the connect step, the commands issued by the whole
call are, first, those of the connect step (`SELECT db` when the request started
without a connection and `db > 0`, none otherwise) and then a prefix of
`HINCRBY key_ip ip 1`, `HINCRBY key_ua ua 1`, `EXPIRE key_ip retention_seconds`,
`EXPIRE key_ua retention_seconds` (`ip` and `ua` being `-` when absent): only the
first if its reply is NULL or an error, exactly the two `HINCRBY` if the reply to
the second is NULL or an error, all four in that order otherwise. And a request
without User-Agent behaves exactly as the same request with User-Agent `-`. -/
theorem command_order :
    (∀ (be : Backend) (cfg : rl_cfg) (r : request_rec) (now : Int) (g : rl_child_ctx)
        (tr : List Event) (w1 : World) (key_ip key_ua : CStr) (c : redisContext),
      r.main = false →
      derive_keys cfg.pfx cfg.bucket_seconds (Int.tdiv now APR_USEC_PER_SEC)
        = some (key_ip, key_ua) →
      ensure_connected be cfg (World.mk (some g) tr) = some w1 →
      w1.g_child_ctx = some { ctx := some c } →
      ∃ ret w' pre new,
        rl_log_transaction be cfg r now (World.mk (some g) tr) = some (ret, w') ∧
        w1.trace = tr ++ pre ∧
        w'.trace = tr ++ pre ++ new ∧
        commands_of pre = (if g.ctx = none ∧ cfg.db > 0 then [Command.SELECT cfg.db] else []) ∧
        commands_of new <+:
          [Command.HINCRBY key_ip (r.useragent_ip.getD "-".toList) 1,
            Command.HINCRBY key_ua (r.user_agent.getD "-".toList) 1,
            Command.EXPIRE key_ip cfg.retention_seconds,
            Command.EXPIRE key_ua cfg.retention_seconds] ∧
        ((be.redisCommand w1.trace c
              (Command.HINCRBY key_ip (r.useragent_ip.getD "-".toList) 1) = redisReply.null ∨
            be.redisCommand w1.trace c
              (Command.HINCRBY key_ip (r.useragent_ip.getD "-".toList) 1) = redisReply.error) →
          commands_of new = [Command.HINCRBY key_ip (r.useragent_ip.getD "-".toList) 1]) ∧
        (be.redisCommand w1.trace c
              (Command.HINCRBY key_ip (r.useragent_ip.getD "-".toList) 1) ≠ redisReply.null →
          be.redisCommand w1.trace c
              (Command.HINCRBY key_ip (r.useragent_ip.getD "-".toList) 1) ≠ redisReply.error →
          (be.redisCommand (w1.trace ++
              [Event.command c (Command.HINCRBY key_ip (r.useragent_ip.getD "-".toList) 1)]) c
              (Command.HINCRBY key_ua (r.user_agent.getD "-".toList) 1) = redisReply.null ∨
            be.redisCommand (w1.trace ++
              [Event.command c (Command.HINCRBY key_ip (r.useragent_ip.getD "-".toList) 1)]) c
              (Command.HINCRBY key_ua (r.user_agent.getD "-".toList) 1) = redisReply.error) →
          commands_of new = [Command.HINCRBY key_ip (r.useragent_ip.getD "-".toList) 1,
            Command.HINCRBY key_ua (r.user_agent.getD "-".toList) 1]) ∧
        (be.redisCommand w1.trace c
              (Command.HINCRBY key_ip (r.useragent_ip.getD "-".toList) 1) ≠ redisReply.null →
          be.redisCommand w1.trace c
              (Command.HINCRBY key_ip (r.useragent_ip.getD "-".toList) 1) ≠ redisReply.error →
          be.redisCommand (w1.trace ++
              [Event.command c (Command.HINCRBY key_ip (r.useragent_ip.getD "-".toList) 1)]) c
              (Command.HINCRBY key_ua (r.user_agent.getD "-".toList) 1) ≠ redisReply.null →
          be.redisCommand (w1.trace ++
              [Event.command c (Command.HINCRBY key_ip (r.useragent_ip.getD "-".toList) 1)]) c
              (Command.HINCRBY key_ua (r.user_agent.getD "-".toList) 1) ≠ redisReply.error →
          commands_of new = [Command.HINCRBY key_ip (r.useragent_ip.getD "-".toList) 1,
            Command.HINCRBY key_ua (r.user_agent.getD "-".toList) 1,
            Command.EXPIRE key_ip cfg.retention_seconds,
            Command.EXPIRE key_ua cfg.retention_seconds]))
    ∧ (∀ (be : Backend) (cfg : rl_cfg) (r : request_rec) (now : Int) (w : World),
      rl_log_transaction be cfg { r with user_agent := none } now w
        = rl_log_transaction be cfg { r with user_agent := some "-".toList } now w) := by
  have hrf : ∀ x : redisReply,
      reply_failed x = true ↔ x = redisReply.null ∨ x = redisReply.error := by
    intro x
    cases x <;> simp [reply_failed]
  constructor
  · intro be cfg r now g tr w1 key_ip key_ua c hmain hkeys hconn hctx
    obtain ⟨pre, hpre, hsel⟩ := ensure_connected_commands be cfg g tr w1 c hconn hctx
    have hrun := rl_log_transaction_connected be cfg r now _ _ key_ip key_ua c hmain hkeys
      hconn hctx
    simp only [ip_field, ua_field] at hrun
    split_ifs at hrun with h1 h2
    · refine ⟨_, _, pre,
        [Event.command c (Command.HINCRBY key_ip (r.useragent_ip.getD "-".toList) 1),
        Event.free c],
        hrun, hpre, by rw [hpre], hsel, ?_, ?_, ?_, ?_⟩
      · simp only [commands_of]
        exact ⟨_, rfl⟩
      · intro _; rfl
      · intro hn he
        exact absurd ((hrf _).1 h1) (fun h => h.elim hn he)
      · intro hn he
        exact absurd ((hrf _).1 h1) (fun h => h.elim hn he)
    · refine ⟨_, _, pre,
        [Event.command c (Command.HINCRBY key_ip (r.useragent_ip.getD "-".toList) 1),
        Event.command c (Command.HINCRBY key_ua (r.user_agent.getD "-".toList) 1), Event.free c],
        hrun, hpre, by rw [hpre], hsel, ?_, ?_, ?_, ?_⟩
      · simp only [commands_of]
        exact ⟨_, rfl⟩
      · intro h; exact absurd ((hrf _).2 h) h1
      · intro _ _ _; rfl
      · intro _ _ hn he
        exact absurd ((hrf _).1 h2) (fun h => h.elim hn he)
    · refine ⟨_, _, pre,
        [Event.command c (Command.HINCRBY key_ip (r.useragent_ip.getD "-".toList) 1),
        Event.command c (Command.HINCRBY key_ua (r.user_agent.getD "-".toList) 1),
        Event.command c (Command.EXPIRE key_ip cfg.retention_seconds),
        Event.command c (Command.EXPIRE key_ua cfg.retention_seconds)],
        hrun, hpre, by rw [hpre], hsel, ?_, ?_, ?_, ?_⟩
      · simp only [commands_of]
        exact List.prefix_refl _
      · intro h; exact absurd ((hrf _).2 h) h1
      · intro _ _ h; exact absurd ((hrf _).2 h) h2
      · intro _ _ _ _; rfl
  · intro be cfg r now w
    rfl

/-- Witness of C8 as amended: the example request, Connected with handle 1, on a
backend that answers every `HINCRBY` with an error (only the first command is
issued), on one that answers the User-Agent `HINCRBY` with NULL (exactly the two
`HINCRBY`), and on a working one (all four); after a reconnect with `db = 1` the
connect step has issued `SELECT 1`; the example request behaves the same
without User-Agent as with User-Agent `-`; and the results of three of these runs
in full. -/
theorem command_order_witness :
    (∃ ret w' new, rl_log_transaction backend_hincrby_fails rl_create_srv example_request
          example_now (World.mk (some { ctx := some 1 }) []) = some (ret, w') ∧
        w'.trace = new ∧
        commands_of new
          = [Command.HINCRBY "rl:ip:202401010000".toList "198.51.100.7".toList 1])
    ∧ (∃ ret w' new, rl_log_transaction backend_ua_rejected rl_create_srv example_request
          example_now (World.mk (some { ctx := some 1 }) []) = some (ret, w') ∧
        w'.trace = new ∧
        commands_of new
          = [Command.HINCRBY "rl:ip:202401010000".toList "198.51.100.7".toList 1,
            Command.HINCRBY "rl:ua:202401010000".toList "curl/8.0".toList 1])
    ∧ (∃ ret w' pre new, rl_log_transaction backend_up { rl_create_srv with db := 1 }
          example_request example_now (World.mk (some { ctx := none }) []) = some (ret, w') ∧
        w'.trace = pre ++ new ∧
        commands_of pre = [Command.SELECT 1] ∧
        commands_of new
          = [Command.HINCRBY "rl:ip:202401010000".toList "198.51.100.7".toList 1,
            Command.HINCRBY "rl:ua:202401010000".toList "curl/8.0".toList 1,
            Command.EXPIRE "rl:ip:202401010000".toList 1209600,
            Command.EXPIRE "rl:ua:202401010000".toList 1209600])
    ∧ rl_log_transaction backend_up rl_create_srv { example_request with user_agent := none }
          example_now (World.mk (some { ctx := some 1 }) [])
        = rl_log_transaction backend_up rl_create_srv
          { example_request with user_agent := some "-".toList } example_now
          (World.mk (some { ctx := some 1 }) [])
    ∧ rl_log_transaction backend_hincrby_fails rl_create_srv example_request example_now
          (World.mk (some { ctx := some 1 }) [])
        = some (DECLINED, World.mk (some { ctx := none })
            [Event.command 1
                (Command.HINCRBY "rl:ip:202401010000".toList "198.51.100.7".toList 1),
              Event.free 1])
    ∧ rl_log_transaction backend_ua_rejected rl_create_srv example_request example_now
          (World.mk (some { ctx := some 1 }) [])
        = some (DECLINED, World.mk (some { ctx := none })
            [Event.command 1
                (Command.HINCRBY "rl:ip:202401010000".toList "198.51.100.7".toList 1),
              Event.command 1 (Command.HINCRBY "rl:ua:202401010000".toList "curl/8.0".toList 1),
              Event.free 1])
    ∧ rl_log_transaction backend_up rl_create_srv { example_request with user_agent := none }
          example_now (World.mk (some { ctx := some 1 }) [])
        = some (DECLINED, World.mk (some { ctx := some 1 })
            [Event.command 1
                (Command.HINCRBY "rl:ip:202401010000".toList "198.51.100.7".toList 1),
              Event.command 1 (Command.HINCRBY "rl:ua:202401010000".toList "-".toList 1),
              Event.command 1 (Command.EXPIRE "rl:ip:202401010000".toList 1209600),
              Event.command 1 (Command.EXPIRE "rl:ua:202401010000".toList 1209600)]) := by
  refine ⟨?_, ?_, ?_, command_order.2 backend_up rl_create_srv example_request example_now _,
    by decide, by decide, by decide⟩
  · obtain ⟨ret, w', pre, new, h1, hp, h2, _, _, h3, _, _⟩ :=
      command_order.1 backend_hincrby_fails rl_create_srv example_request example_now
        { ctx := some 1 } [] (World.mk (some { ctx := some 1 }) [])
        "rl:ip:202401010000".toList "rl:ua:202401010000".toList 1 rfl (by decide) (by decide)
        rfl
    have hpre : pre = [] := by simpa using hp.symm
    subst hpre
    exact ⟨ret, w', new, h1, by simpa using h2, h3 (Or.inr rfl)⟩
  · obtain ⟨ret, w', pre, new, h1, hp, h2, _, _, _, h3, _⟩ :=
      command_order.1 backend_ua_rejected rl_create_srv example_request example_now
        { ctx := some 1 } [] (World.mk (some { ctx := some 1 }) [])
        "rl:ip:202401010000".toList "rl:ua:202401010000".toList 1 rfl (by decide) (by decide)
        rfl
    have hpre : pre = [] := by simpa using hp.symm
    subst hpre
    exact ⟨ret, w', new, h1, by simpa using h2,
      h3 (by decide) (by decide) (Or.inl (by decide))⟩
  · obtain ⟨ret, w', pre, new, h1, _, h2, hs, _, _, _, h3⟩ :=
      command_order.1 backend_up { rl_create_srv with db := 1 } example_request example_now
        { ctx := none } []
        (World.mk (some { ctx := some 1 })
          [Event.connect "127.0.0.1".toList 6379, Event.command 1 (Command.SELECT 1)])
        "rl:ip:202401010000".toList "rl:ua:202401010000".toList 1 rfl (by decide) (by decide)
        rfl
    exact ⟨ret, w', pre, new, h1, by simpa using h2, hs,
      h3 (by decide) (by decide) (by decide) (by decide)⟩

/-- C9 (connection manager outcome): once `g_child_ctx` is allocated,
`rl_connect_child` returns for every configuration and backend; the state
afterwards is Connected with handle `h` if and only if the connect returned the
usable context `h` and either `db` is not greater than 0 or the `SELECT` reply is
neither NULL nor an error; otherwise it is Absent. A `SELECT db` is issued if and
only if the connect succeeded and `db > 0`, and no other command is issued. -/
theorem connect_outcome (be : Backend) (cfg : rl_cfg) (g : rl_child_ctx) (tr : List Event) :
    ∃ w' new, rl_connect_child be cfg (World.mk (some g) tr) = some w' ∧
      w'.trace = tr ++ Event.connect cfg.host cfg.port :: new ∧
      (∀ h, w'.g_child_ctx = some { ctx := some h } ↔
        (be.redisConnectWithTimeout tr cfg.host cfg.port = ConnectResult.ok h ∧
          (¬ cfg.db > 0 ∨
            (be.redisCommand (tr ++ [Event.connect cfg.host cfg.port]) h
                (Command.SELECT cfg.db) ≠ redisReply.null ∧
              be.redisCommand (tr ++ [Event.connect cfg.host cfg.port]) h
                (Command.SELECT cfg.db) ≠ redisReply.error)))) ∧
      ((∃ h, w'.g_child_ctx = some { ctx := some h }) ∨ w'.g_child_ctx = some { ctx := none }) ∧
      (commands_of new = [Command.SELECT cfg.db] ↔
        ((∃ h, be.redisConnectWithTimeout tr cfg.host cfg.port = ConnectResult.ok h) ∧
          cfg.db > 0)) ∧
      (commands_of new = [Command.SELECT cfg.db] ∨ commands_of new = []) := by
  have hrf : ∀ x : redisReply,
      reply_failed x = true ↔ x = redisReply.null ∨ x = redisReply.error := by
    intro x
    cases x <;> simp [reply_failed]
  have hrff : ∀ x : redisReply,
      reply_failed x = false ↔ x ≠ redisReply.null ∧ x ≠ redisReply.error := by
    intro x
    cases x <;> simp [reply_failed]
  simp only [rl_connect_child]
  cases hc : be.redisConnectWithTimeout tr cfg.host cfg.port with
  | null => exact ⟨_, [], rfl, by simp, by simp [set_ctx], by simp [set_ctx],
      by simp [commands_of], by simp [commands_of]⟩
  | err h => exact ⟨_, [Event.free h], rfl, by simp [set_ctx], by simp [set_ctx],
      by simp [set_ctx], by simp [commands_of], by simp [commands_of]⟩
  | ok h =>
    by_cases hdb : cfg.db > 0
    · by_cases hr : reply_failed (be.redisCommand (tr ++ [Event.connect cfg.host cfg.port]) h
          (Command.SELECT cfg.db)) = true
      · refine ⟨_, [Event.command h (Command.SELECT cfg.db), Event.free h],
          by simp only [hdb, hr, if_true]; rfl, by simp [set_ctx], ?_, by simp [set_ctx],
          by simp [commands_of, hdb], by simp [commands_of]⟩
        intro h'
        simp only [set_ctx]
        constructor
        · intro hh; cases hh
        · rintro ⟨he, hh⟩
          cases he
          rcases hh with hh | hh
          · exact absurd hdb hh
          · rcases (hrf _).1 hr with hn | hn
            · exact absurd hn hh.1
            · exact absurd hn hh.2
      · refine ⟨_, [Event.command h (Command.SELECT cfg.db)],
          by simp only [hdb, hr, if_true, Bool.false_eq_true, if_false]; rfl,
          by simp [set_ctx], ?_, by simp [set_ctx], by simp [commands_of, hdb],
          by simp [commands_of]⟩
        intro h'
        simp only [set_ctx]
        constructor
        · intro hh; cases hh
          exact ⟨rfl, Or.inr ((hrff _).1 (by simpa using hr))⟩
        · rintro ⟨he, _⟩
          cases he
          rfl
    · refine ⟨_, [], by simp only [hdb, if_false]; rfl, by simp [set_ctx], ?_,
        by simp [set_ctx], by simp [commands_of, hdb], by simp [commands_of]⟩
      intro h'
      simp only [set_ctx]
      constructor
      · intro hh; cases hh
        exact ⟨rfl, Or.inl hdb⟩
      · rintro ⟨he, _⟩
        cases he
        rfl

/-- Witness of C9: with `db = 1` on a backend whose `SELECT` reply is an error the
state ends Absent after `connect`, `SELECT 1` and the release of the context; on
one whose `SELECT` reply is NULL likewise; on a working backend it ends Connected
with handle 1; with `db = 0` no `SELECT` is sent; and an unreachable backend
leaves the state Absent after the connect attempt alone. -/
theorem connect_outcome_witness :
    (∃ w' new, rl_connect_child backend_select_fails { rl_create_srv with db := 1 }
          (World.mk (some { ctx := none }) []) = some w' ∧
        w'.trace = [] ++ Event.connect ({ rl_create_srv with db := 1 } : rl_cfg).host
          ({ rl_create_srv with db := 1 } : rl_cfg).port :: new ∧
        w'.g_child_ctx = some { ctx := none } ∧
        commands_of new = [Command.SELECT 1])
    ∧ rl_connect_child backend_select_fails { rl_create_srv with db := 1 }
          (World.mk (some { ctx := none }) [])
        = some (World.mk (some { ctx := none })
            [Event.connect "127.0.0.1".toList 6379, Event.command 1 (Command.SELECT 1),
              Event.free 1])
    ∧ rl_connect_child backend_down { rl_create_srv with db := 1 }
          (World.mk (some { ctx := none }) [])
        = some (World.mk (some { ctx := none }) [Event.connect "127.0.0.1".toList 6379])
    ∧ rl_connect_child backend_select_null { rl_create_srv with db := 1 }
          (World.mk (some { ctx := none }) [])
        = some (World.mk (some { ctx := none })
            [Event.connect "127.0.0.1".toList 6379, Event.command 1 (Command.SELECT 1),
              Event.free 1])
    ∧ rl_connect_child backend_up { rl_create_srv with db := 1 }
          (World.mk (some { ctx := none }) [])
        = some (World.mk (some { ctx := some 1 })
            [Event.connect "127.0.0.1".toList 6379, Event.command 1 (Command.SELECT 1)])
    ∧ rl_connect_child backend_select_fails rl_create_srv
          (World.mk (some { ctx := none }) [])
        = some (World.mk (some { ctx := some 1 }) [Event.connect "127.0.0.1".toList 6379]) := by
  refine ⟨?_, by decide, by decide, by decide, by decide, by decide⟩
  obtain ⟨w', new, h1, h2, h3, h4, h5, _⟩ :=
    connect_outcome backend_select_fails { rl_create_srv with db := 1 } { ctx := none } []
  refine ⟨w', new, h1, h2, ?_, h5.2 ⟨⟨1, rfl⟩, by decide⟩⟩
  rcases h4 with ⟨h, hh⟩ | h4
  · have := (h3 h).1 hh
    obtain ⟨he, hs⟩ := this
    have h1' : h = 1 := by
      have : ConnectResult.ok 1 = ConnectResult.ok h := he
      cases this
      rfl
    subst h1'
    rcases hs with hs | hs
    · exact absurd (by decide) hs
    · exact absurd rfl hs.2
  · exact h4

/-- C10, the code at the failing input: the directive `RedisLogBucketSeconds 0`
(and likewise a non-numeric argument) stores the bucket width 0, and then the
modulo of the key derivation divides by zero: every main request is undefined
behaviour, whatever the backend, the time and the process state. -/
theorem set_bucket_zero_divides_by_zero :
    (set_bucket rl_create_srv "0".toList).bucket_seconds = 0 ∧
    (set_bucket rl_create_srv "abc".toList).bucket_seconds = 0 ∧
    (∀ secs, derive_keys rl_create_srv.pfx (set_bucket rl_create_srv "0".toList).bucket_seconds
      secs = none) ∧
    (∀ be now w, rl_log_transaction be (set_bucket rl_create_srv "0".toList) example_request
      now w = none) := by
  have h0 : (set_bucket rl_create_srv "0".toList).bucket_seconds = 0 := by decide
  refine ⟨h0, by decide, ?_, ?_⟩
  · intro secs
    rw [h0]
    rfl
  · intro be now w
    exact rl_log_transaction_zero be _ example_request now w h0 rfl

end ModUalog
